import Mathlib

/-!
Verification of the RobStride USB-CAN controller (src/src/robstride.py and
src/src/constants.py) against its natural-language specification.

The Python code is shallowly embedded:
* machine integers are `Nat` (Python ints are unbounded; `int.to_bytes(4, 'big')`
  raises `OverflowError` for values ≥ 2^32, so theorems carry the range
  hypotheses — motor id < 2^8, secondary/host id < 2^16 — under which the total
  Lean model and the Python code coincide);
* IEEE-754 float values are abstracted as their 4-byte little-endian encodings
  (`F32`); float addition and `math.isclose` are environment parameters, since
  no claim here depends on numeric float behaviour;
* the serial transport is an oracle `respond : frame → Option response`
  together with a `writerOpen` flag; each operation also returns the list of
  frames it wrote to the wire (its trace);
* a Python function returning `None` is modelled with return channel `none`
  (type `Option Bool`), one returning `bool` with `some b`;
* an uncaught Python exception (the `KeyError` reachable in `_set_run_mode`)
  is modelled by an outer `Option` being `none`.
-/

/-- Little-endian byte expansion, as Python int.to_bytes(k, 'little'). -/
def toBytesLE : Nat → Nat → List Nat
  | 0, _ => []
  | k + 1, n => n % 256 :: toBytesLE k (n / 256)

/-- Big-endian byte expansion, as Python int.to_bytes(k, 'big'). -/
def toBytesBE (k n : Nat) : List Nat :=
  (toBytesLE k n).reverse

/-- Python int.from_bytes(bs, 'big'). -/
def bytesToNatBE (bs : List Nat) : Nat :=
  bs.foldl (fun a b => a * 256 + b) 0

/-- Python int.from_bytes(bs, 'little'). -/
def bytesToNatLE (bs : List Nat) : Nat :=
  bs.foldr (fun b a => a * 256 + b) 0

/-- constants.py CommandType. -/
inductive CommandType
  | GET_DEVICE_ID
  | ENABLE
  | DISABLE
  | READ_PARAM
  | WRITE_PARAM
deriving DecidableEq

/-- constants.py CommandType values. -/
def CommandType.value : CommandType → Nat
  | .GET_DEVICE_ID => 0x00
  | .ENABLE => 0x03
  | .DISABLE => 0x04
  | .READ_PARAM => 0x11
  | .WRITE_PARAM => 0x12

/-- constants.py MotorStatus. -/
inductive MotorStatus
  | RESET
  | CALIBRATION
  | RUN
  | UNKNOWN
deriving DecidableEq

/-- robstride.py lines 233-237: MotorStatus(status_val) if status_val is a member
value, else MotorStatus.UNKNOWN (UNKNOWN itself has value 99). -/
def MotorStatus.ofVal (v : Nat) : MotorStatus :=
  if v = 0 then .RESET
  else if v = 1 then .CALIBRATION
  else if v = 2 then .RUN
  else .UNKNOWN

/-- constants.py RunMode. -/
inductive RunMode
  | OPERATION
  | POSITION_PP
  | VELOCITY
  | CURRENT
  | POSITION_CSP
deriving DecidableEq

/-- constants.py RunMode values. -/
def RunMode.value : RunMode → Nat
  | .OPERATION => 0
  | .POSITION_PP => 1
  | .VELOCITY => 2
  | .CURRENT => 3
  | .POSITION_CSP => 5

-- constants.py ParameterIndex values.
namespace ParameterIndex

def RUN_MODE : Nat := 0x7005

def LOC_REF : Nat := 0x7016

def VEL_MAX : Nat := 0x7024

def ACC_SET : Nat := 0x7025

def IQ_REF : Nat := 0x7006

def SPD_REF : Nat := 0x700A

def LIMIT_CUR : Nat := 0x7018

def ACC_RAD : Nat := 0x7022

def LIMIT_SPD : Nat := 0x7017

end ParameterIndex

/-- A Python float, abstracted as its struct.pack of 4 little-endian IEEE-754
bytes; numeric float behaviour is never needed by the claims. -/
structure F32 where
  bytes : List Nat
deriving DecidableEq

/-- struct.pack of 0.0 is four zero bytes. -/
def F32.zero : F32 := ⟨[0, 0, 0, 0]⟩

/-- robstride.py RobStrideLimits dataclass (float fields as F32). -/
structure RobStrideLimits where
  pp_vel_max : Option F32
  pp_acc_set : Option F32
  pp_limit_cur : Option F32
  velocity_limit_cur : Option F32
  velocity_acc_rad : Option F32
  csp_limit_spd : Option F32
  csp_limit_cur : Option F32
deriving DecidableEq

/-- robstride.py RobStride dataclass. -/
structure RobStride where
  id : Nat
  offset : F32
  limits : Option RobStrideLimits
  _is_enabled : Bool
  _current_mode : Option RunMode
deriving DecidableEq

/-- RobStride.is_enabled. -/
def RobStride.is_enabled (m : RobStride) : Bool := m._is_enabled

/-- RobStride.get_current_mode. -/
def RobStride.get_current_mode (m : RobStride) : Option RunMode := m._current_mode

/-- RobStride._set_enabled. -/
def RobStride._set_enabled (m : RobStride) (enabled : Bool) : RobStride :=
  { m with _is_enabled := enabled }

/-- RobStride._set_mode. -/
def RobStride._set_mode (m : RobStride) (mode : Option RunMode) : RobStride :=
  { m with _current_mode := mode }

/-- The controller's motor table, in registration order (Python keeps a dict in
insertion order, keyed by motor id). -/
abbrev Motors := List RobStride

/-- The frames an operation wrote to the wire, in order. -/
abbrev Trace := List (List Nat)

/-- The controller's environment: host id, serial-channel state, the wire as a
response oracle, and the two abstracted float operations (math.isclose with
rel_tol 1e-6 applied to the unpacked read-back bytes, and float addition). -/
structure Env where
  host_id : Nat
  writerOpen : Bool
  respond : List Nat → Option (List Nat)
  isclose : List Nat → F32 → Bool
  fadd : F32 → F32 → F32

namespace RobStrideController

/-- robstride.py lines 83-105 (_create_frame).  Python's int.to_bytes raises
OverflowError when the encoded id reaches 2^32; that needs a 29-bit CAN id
of at least 2^29, impossible under the range hypotheses used by every theorem
below, where this total model and the Python code agree.  The length-17 assert
holds whenever the payload has 8 bytes. -/
def _create_frame (host_id : Nat) (command_type : CommandType) (motor_id : Nat)
    (data_area2 : Nat) (data_payload : List Nat) : List Nat :=
  let d2 := if command_type = CommandType.GET_DEVICE_ID ∨
      command_type = CommandType.ENABLE ∨
      command_type = CommandType.DISABLE then host_id else data_area2
  let can_id_29bit := (command_type.value <<< 24) ||| (d2 <<< 8) ||| motor_id
  let encoded_id_32bit := (can_id_29bit <<< 3) ||| 0b100
  [0x41, 0x54] ++ toBytesBE 4 encoded_id_32bit ++ [0x08] ++ data_payload ++ [0x0d, 0x0a]

end RobStrideController

/-- Spec section 4.1/6 decode: the 29-bit CAN id recovered from frame bytes
2-5 (also robstride.py line 231). -/
def decode_can_id (frame : List Nat) : Nat :=
  bytesToNatBE ((frame.drop 2).take 4) >>> 3

/-- Spec section 6 status extraction (also robstride.py line 232). -/
def decode_status (frame : List Nat) : Nat :=
  (decode_can_id frame >>> 22) &&& 0b11

/-- Spec section 6 error-flag extraction. -/
def decode_error_flags (frame : List Nat) : Nat :=
  (decode_can_id frame >>> 16) &&& 0x3F

/-- Command-type field of the recovered 29-bit id (bits 24-28). -/
def decode_cmd_type (frame : List Nat) : Nat :=
  decode_can_id frame >>> 24

/-- Secondary-id field of the recovered 29-bit id (bits 8-23). -/
def decode_secondary_id (frame : List Nat) : Nat :=
  (decode_can_id frame >>> 8) &&& 0xFFFF

/-- Motor-id field of the recovered 29-bit id (bits 0-7). -/
def decode_motor_id (frame : List Nat) : Nat :=
  decode_can_id frame &&& 0xFF

/-- The value written in a parameter-write payload: struct.pack of an int as
4-byte unsigned LE, or of a float (robstride.py lines 173-177). -/
inductive ParamValue
  | int (v : Nat)
  | float (f : F32)

namespace RobStrideController

/-- robstride.py lines 107-158 (_send_and_receive).  On an open writer the
frame is always written (the trace records it); the reply is accepted only if
nonempty, prefixed with b'AT', suffixed with CR LF, and exactly 17 bytes long.
Timeouts and I/O errors are the oracle answering none. -/
def _send_and_receive (env : Env) (frame : List Nat) : Option (List Nat) × Trace :=
  if env.writerOpen = false then (none, [])
  else
    match env.respond frame with
    | none => (none, [frame])
    | some response =>
      if response.length ≠ 0 ∧ response.take 2 = [0x41, 0x54] ∧
          response.drop (response.length - 2) = [0x0d, 0x0a] then
        if response.length = 17 then (some response, [frame]) else (none, [frame])
      else (none, [frame])

/-- robstride.py lines 160-168 (_read_parameter): payload is the LE 16-bit
index plus six zero bytes; on success the 4 value bytes at offsets 11-14 of
the response. -/
def _read_parameter (env : Env) (motor_id index : Nat) : Option (List Nat) × Trace :=
  let payload := toBytesLE 2 index ++ List.replicate 6 0
  let frame := _create_frame env.host_id CommandType.READ_PARAM motor_id env.host_id payload
  match _send_and_receive env frame with
  | (some response, tr) => (some ((response.drop 11).take 4), tr)
  | (none, tr) => (none, tr)

/-- robstride.py lines 170-184 (_write_parameter): payload is the LE 16-bit
index, two zero bytes, then the 4-byte LE value. -/
def _write_parameter (env : Env) (motor_id index : Nat) (value : ParamValue) :
    Option (List Nat) × Trace :=
  let vbytes := match value with
    | ParamValue.int v => toBytesLE 4 v
    | ParamValue.float f => f.bytes
  let payload := toBytesLE 2 index ++ [0, 0] ++ vbytes
  let frame := _create_frame env.host_id CommandType.WRITE_PARAM motor_id env.host_id payload
  _send_and_receive env frame

/-- Lookup in the motor dict (robstride.py line 77 builds it keyed by id). -/
def findMotor (motors : Motors) (motor_id : Nat) : Option RobStride :=
  motors.find? (fun m => m.id == motor_id)

/-- In-place mutation self.motors[motor_id]._set_enabled(b). -/
def setEnabledIn (motors : Motors) (motor_id : Nat) (b : Bool) : Motors :=
  motors.map (fun m => if m.id = motor_id then m._set_enabled b else m)

/-- In-place mutation self.motors[motor_id]._set_mode(mode). -/
def setModeIn (motors : Motors) (motor_id : Nat) (mode : Option RunMode) : Motors :=
  motors.map (fun m => if m.id = motor_id then m._set_mode mode else m)

/-- The zero-payload identity probe frame sent by connect. -/
def deviceIdFrame (host_id motor_id : Nat) : List Nat :=
  _create_frame host_id CommandType.GET_DEVICE_ID motor_id 0 (List.replicate 8 0)

/-- Whether one motor answers its connect probe with a valid response. -/
def probe_ok (env : Env) (motor_id : Nat) : Bool :=
  ((_send_and_receive { env with writerOpen := true }
    (deviceIdFrame env.host_id motor_id)).fst).isSome

/-- robstride.py lines 186-217 (connect).  openOK models whether
open_serial_connection succeeds.  Returns (result, writer open afterwards):
an open failure leaves the writer unset, a probe failure runs disconnect
(closing the writer), success leaves it open.  The Python loop probes every
motor before aggregating; the oracle is a pure function of the frame, so the
aggregate equals the conjunction of the probes. -/
def connect (env : Env) (openOK : Bool) (motor_ids : List Nat) : Bool × Bool :=
  if openOK = false then (false, false)
  else
    let all_connected := motor_ids.all (fun mid => probe_ok env mid)
    if all_connected then (true, true) else (false, false)

/-- The enable command frame (robstride.py line 225; data_area2 defaults to 0
and is replaced by the host id inside _create_frame). -/
def enableFrame (host_id motor_id : Nat) : List Nat :=
  _create_frame host_id CommandType.ENABLE motor_id 0 (List.replicate 8 0)

/-- The disable command frame (robstride.py line 256). -/
def disableFrame (host_id motor_id : Nat) : List Nat :=
  _create_frame host_id CommandType.DISABLE motor_id 0 (List.replicate 8 0)

/-- robstride.py lines 219-247 (enable). -/
def enable (env : Env) (motors : Motors) (motor_id : Nat) :
    Option Bool × Motors × Trace :=
  match findMotor motors motor_id with
  | none => (some false, motors, [])
  | some _ =>
    match _send_and_receive env (enableFrame env.host_id motor_id) with
    | (none, tr) => (some false, motors, tr)
    | (some response, tr) =>
      let can_id_29bit := bytesToNatBE ((response.drop 2).take 4) >>> 3
      let status_val := (can_id_29bit >>> 22) &&& 0b11
      let status := MotorStatus.ofVal status_val
      if status = MotorStatus.RUN then (some true, setEnabledIn motors motor_id true, tr)
      else (some false, motors, tr)

/-- robstride.py lines 249-260 (disable): the wire result is ignored, the
local state is unconditionally cleared; the Python function returns None. -/
def disable (env : Env) (motors : Motors) (motor_id : Nat) :
    Option Bool × Motors × Trace :=
  match findMotor motors motor_id with
  | none => (none, motors, [])
  | some _ =>
    let r := _send_and_receive env (disableFrame env.host_id motor_id)
    (none, setModeIn (setEnabledIn motors motor_id false) motor_id none, r.snd)

/-- robstride.py lines 262-274 (_check_motor_enabled). -/
def _check_motor_enabled (motors : Motors) (motor_id : Nat) : Bool :=
  match findMotor motors motor_id with
  | none => false
  | some m => m.is_enabled

/-- robstride.py lines 276-288 (_check_motor_mode). -/
def _check_motor_mode (motors : Motors) (motor_id : Nat) (required_mode : RunMode) :
    Bool :=
  _check_motor_enabled motors motor_id &&
    match findMotor motors motor_id with
    | none => false
    | some m => decide (m.get_current_mode = some required_mode)

/-- The run-mode write frame issued by _set_run_mode. -/
def writeModeFrame (host_id motor_id : Nat) (mode : RunMode) : List Nat :=
  _create_frame host_id CommandType.WRITE_PARAM motor_id host_id
    (toBytesLE 2 ParameterIndex.RUN_MODE ++ [0, 0] ++ toBytesLE 4 mode.value)

/-- The run-mode read-back frame issued by _set_run_mode. -/
def readModeFrame (host_id motor_id : Nat) : List Nat :=
  _create_frame host_id CommandType.READ_PARAM motor_id host_id
    (toBytesLE 2 ParameterIndex.RUN_MODE ++ List.replicate 6 0)

/-- robstride.py lines 290-308 (_set_run_mode).  No enabled-state check is
performed.  Verification compares int.from_bytes(read_data[0:1], 'little'),
i.e. only the first read-back byte, with mode.value.  The outer Option models
the uncaught KeyError of self.motors[motor_id] when the verification succeeds
for an unregistered motor id. -/
def _set_run_mode (env : Env) (motors : Motors) (motor_id : Nat) (mode : RunMode) :
    Option (Option Bool × Motors × Trace) :=
  let w := _write_parameter env motor_id ParameterIndex.RUN_MODE (ParamValue.int mode.value)
  let r := _read_parameter env motor_id ParameterIndex.RUN_MODE
  let tr := w.snd ++ r.snd
  match r.fst with
  | some read_data =>
    let current_mode := bytesToNatLE (read_data.take 1)
    if current_mode = mode.value then
      match findMotor motors motor_id with
      | some _ => some (some true, setModeIn motors motor_id (some mode), tr)
      | none => none
    else some (some false, motors, tr)
  | none => some (some false, motors, tr)

/-- robstride.py line 343 (set_mode_pp). -/
def set_mode_pp (env : Env) (motors : Motors) (motor_id : Nat) :
    Option (Option Bool × Motors × Trace) :=
  _set_run_mode env motors motor_id RunMode.POSITION_PP

/-- robstride.py line 404 (set_mode_velocity). -/
def set_mode_velocity (env : Env) (motors : Motors) (motor_id : Nat) :
    Option (Option Bool × Motors × Trace) :=
  _set_run_mode env motors motor_id RunMode.VELOCITY

/-- robstride.py line 453 (set_mode_current). -/
def set_mode_current (env : Env) (motors : Motors) (motor_id : Nat) :
    Option (Option Bool × Motors × Trace) :=
  _set_run_mode env motors motor_id RunMode.CURRENT

/-- robstride.py line 466 (set_mode_csp). -/
def set_mode_csp (env : Env) (motors : Motors) (motor_id : Nat) :
    Option (Option Bool × Motors × Trace) :=
  _set_run_mode env motors motor_id RunMode.POSITION_CSP

/-- robstride.py lines 310-340 (_set_float_parameter): write, read back,
compare with math.isclose (rel_tol 1e-6), here the abstract env.isclose on
the raw read-back bytes. -/
def _set_float_parameter (env : Env) (motors : Motors) (motor_id param_index : Nat)
    (value : F32) : Bool × Trace :=
  match findMotor motors motor_id with
  | none => (false, [])
  | some _ =>
    let w := _write_parameter env motor_id param_index (ParamValue.float value)
    let r := _read_parameter env motor_id param_index
    let tr := w.snd ++ r.snd
    match r.fst with
    | some read_data =>
      if env.isclose read_data value then (true, tr) else (false, tr)
    | none => (false, tr)

/-- robstride.py lines 346-386 (apply_pp_limits): success is the conjunction
of the verified writes of the present limit fields; a missing bundle succeeds
trivially. -/
def apply_pp_limits (env : Env) (motors : Motors) (motor_id : Nat) :
    Option Bool × Motors × Trace :=
  if _check_motor_mode motors motor_id RunMode.POSITION_PP = false then
    (some false, motors, [])
  else
    match findMotor motors motor_id with
    | none => (some false, motors, [])
    | some motor =>
      match motor.limits with
      | none => (some true, motors, [])
      | some limits =>
        let r1 := match limits.pp_vel_max with
          | some v => _set_float_parameter env motors motor_id ParameterIndex.VEL_MAX v
          | none => (true, [])
        let r2 := match limits.pp_acc_set with
          | some v => _set_float_parameter env motors motor_id ParameterIndex.ACC_SET v
          | none => (true, [])
        let r3 := match limits.pp_limit_cur with
          | some v => _set_float_parameter env motors motor_id ParameterIndex.LIMIT_CUR v
          | none => (true, [])
        (some (r1.fst && r2.fst && r3.fst), motors, r1.snd ++ r2.snd ++ r3.snd)

/-- robstride.py lines 407-438 (apply_velocity_limits). -/
def apply_velocity_limits (env : Env) (motors : Motors) (motor_id : Nat) :
    Option Bool × Motors × Trace :=
  if _check_motor_mode motors motor_id RunMode.VELOCITY = false then
    (some false, motors, [])
  else
    match findMotor motors motor_id with
    | none => (some false, motors, [])
    | some motor =>
      match motor.limits with
      | none => (some true, motors, [])
      | some limits =>
        let r1 := match limits.velocity_limit_cur with
          | some v => _set_float_parameter env motors motor_id ParameterIndex.LIMIT_CUR v
          | none => (true, [])
        let r2 := match limits.velocity_acc_rad with
          | some v => _set_float_parameter env motors motor_id ParameterIndex.ACC_RAD v
          | none => (true, [])
        (some (r1.fst && r2.fst), motors, r1.snd ++ r2.snd)

/-- robstride.py lines 469-500 (apply_csp_limits). -/
def apply_csp_limits (env : Env) (motors : Motors) (motor_id : Nat) :
    Option Bool × Motors × Trace :=
  if _check_motor_mode motors motor_id RunMode.POSITION_CSP = false then
    (some false, motors, [])
  else
    match findMotor motors motor_id with
    | none => (some false, motors, [])
    | some motor =>
      match motor.limits with
      | none => (some true, motors, [])
      | some limits =>
        let r1 := match limits.csp_limit_spd with
          | some v => _set_float_parameter env motors motor_id ParameterIndex.LIMIT_SPD v
          | none => (true, [])
        let r2 := match limits.csp_limit_cur with
          | some v => _set_float_parameter env motors motor_id ParameterIndex.LIMIT_CUR v
          | none => (true, [])
        (some (r1.fst && r2.fst), motors, r1.snd ++ r2.snd)

/-- robstride.py lines 388-401 (set_target_position): fire-and-forget write of
position_rad + offset to LOC_REF; the Python function returns None. -/
def set_target_position (env : Env) (motors : Motors) (motor_id : Nat)
    (position_rad : F32) : Option Bool × Motors × Trace :=
  match findMotor motors motor_id with
  | none => (none, motors, [])
  | some motor =>
    let r := _write_parameter env motor_id ParameterIndex.LOC_REF
      (ParamValue.float (env.fadd position_rad motor.offset))
    (none, motors, r.snd)

/-- robstride.py lines 440-450 (set_target_velocity). -/
def set_target_velocity (env : Env) (motors : Motors) (motor_id : Nat)
    (velocity : F32) : Option Bool × Motors × Trace :=
  match findMotor motors motor_id with
  | none => (none, motors, [])
  | some _ =>
    let r := _write_parameter env motor_id ParameterIndex.SPD_REF (ParamValue.float velocity)
    (none, motors, r.snd)

/-- robstride.py lines 456-463 (set_target_current). -/
def set_target_current (env : Env) (motors : Motors) (motor_id : Nat)
    (current : F32) : Option Bool × Motors × Trace :=
  match findMotor motors motor_id with
  | none => (none, motors, [])
  | some _ =>
    let r := _write_parameter env motor_id ParameterIndex.IQ_REF (ParamValue.float current)
    (none, motors, r.snd)

/-- The zero-velocity shutdown frame for one motor. -/
def velZeroFrame (host_id motor_id : Nat) : List Nat :=
  _create_frame host_id CommandType.WRITE_PARAM motor_id host_id
    (toBytesLE 2 ParameterIndex.SPD_REF ++ [0, 0] ++ F32.zero.bytes)

/-- The zero-current shutdown frame for one motor. -/
def curZeroFrame (host_id motor_id : Nat) : List Nat :=
  _create_frame host_id CommandType.WRITE_PARAM motor_id host_id
    (toBytesLE 2 ParameterIndex.IQ_REF ++ [0, 0] ++ F32.zero.bytes)

/-- robstride.py lines 515-530 (__aexit__): with the writer open, loop one —
zero-velocity then zero-current per motor — then loop two — disable per
motor; afterwards disconnect closes the writer (not part of the returned
state).  With the writer already closed, nothing is sent. -/
def aexit (env : Env) (motors : Motors) : Motors × Trace :=
  if env.writerOpen then
    let ids := motors.map (fun m => m.id)
    let s1 := ids.foldl (fun (acc : Motors × Trace) mid =>
      let r1 := set_target_velocity env acc.fst mid F32.zero
      let r2 := set_target_current env r1.snd.fst mid F32.zero
      (r2.snd.fst, acc.snd ++ r1.snd.snd ++ r2.snd.snd)) (motors, [])
    ids.foldl (fun (acc : Motors × Trace) mid =>
      let r := disable env acc.fst mid
      (r.snd.fst, acc.snd ++ r.snd.snd)) s1
  else (motors, [])

end RobStrideController

/-- The data_area2 value actually embedded in a frame: _create_frame replaces
the caller's argument with the host id for the three control command types. -/
def effectiveD2 (host_id : Nat) (command_type : CommandType) (data_area2 : Nat) : Nat :=
  if command_type = CommandType.GET_DEVICE_ID ∨ command_type = CommandType.ENABLE ∨
      command_type = CommandType.DISABLE then host_id else data_area2

open RobStrideController

/-- A syntactically valid 17-byte response whose parameter-value slot (bytes
11-14) is 01 00 00 00. -/
def respModePP : List Nat :=
  [0x41, 0x54, 0, 0, 0, 0, 0x08, 0, 0, 0, 0, 1, 0, 0, 0, 0x0d, 0x0a]

/-- An open-channel environment whose wire always answers with respModePP. -/
def envPP : Env :=
  Env.mk 253 true (fun _ => some respModePP) (fun _ _ => true) (fun a _ => a)

/-- One registered motor, currently enabled in velocity mode. -/
def motorsEnabled : Motors :=
  [RobStride.mk 1 F32.zero none true (some RunMode.VELOCITY)]

/-- A valid 17-byte response whose parameter-value slot is 01 01 00 00: as a
32-bit little-endian integer this is 257. -/
def respMode257 : List Nat :=
  [0x41, 0x54, 0, 0, 0, 0, 0x08, 0, 0, 0, 0, 1, 1, 0, 0, 0x0d, 0x0a]

/-- An open-channel environment whose wire always answers with respMode257. -/
def env257 : Env :=
  Env.mk 253 true (fun _ => some respMode257) (fun _ _ => true) (fun a _ => a)

/-- One registered motor, currently disabled with no mode. -/
def motorsDisabled : Motors :=
  [RobStride.mk 1 F32.zero none false none]

/-- The cumulative local-state effect of the disable loop. -/
def disAll : List Nat → Motors → Motors
  | [], ms => ms
  | i :: rest, ms => disAll rest (setModeIn (setEnabledIn ms i false) i none)

/-- A motor after its disable bookkeeping: enabled flag cleared, mode None. -/
def disabledForm (m : RobStride) : RobStride := (m._set_enabled false)._set_mode none

/-- Two registered motors, both enabled with an active mode. -/
def motorsTwo : Motors :=
  [RobStride.mk 1 F32.zero none true (some RunMode.VELOCITY),
   RobStride.mk 2 F32.zero none true (some RunMode.CURRENT)]

/-- A wire that never answers motor 1's disable but answers everything else. -/
def envDrop : Env :=
  Env.mk 253 true (fun f => if f = disableFrame 253 1 then none else some respModePP)
    (fun _ _ => true) (fun a _ => a)

theorem bytesToNatBE_toBytesBE4 (n : Nat) : bytesToNatBE (toBytesBE 4 n) = n % 2 ^ 32 := by
  simp [toBytesBE, toBytesLE, bytesToNatBE]
  omega

theorem toBytesLE_length (k n : Nat) : (toBytesLE k n).length = k := by
  induction k generalizing n with
  | zero => rfl
  | succ k ih => simp [toBytesLE, ih]

theorem toBytesBE_length (k n : Nat) : (toBytesBE k n).length = k := by
  simp [toBytesBE, toBytesLE_length]

theorem lor_low_bits (x : Nat) : (x <<< 3) ||| 4 = x * 8 + 4 := by
  rw [Nat.shiftLeft_eq, mul_comm]
  have h := (Nat.mul_add_lt_is_or (i := 3) (b := 4) (by norm_num) x).symm
  simpa using h

theorem lor_build_id (c s m : Nat) (hs : s < 2 ^ 16) (hm : m < 2 ^ 8) :
    (c <<< 24) ||| (s <<< 8) ||| m = c * 2 ^ 24 + s * 2 ^ 8 + m := by
  rw [Nat.shiftLeft_eq, Nat.shiftLeft_eq, Nat.or_assoc]
  have h1 : s * 2 ^ 8 + m = s * 2 ^ 8 ||| m := by
    rw [mul_comm]
    exact Nat.mul_add_lt_is_or hm s
  have h2 : s * 2 ^ 8 + m < 2 ^ 24 := by omega
  have h3 : c * 2 ^ 24 + (s * 2 ^ 8 + m) = c * 2 ^ 24 ||| (s * 2 ^ 8 + m) := by
    rw [mul_comm]
    exact Nat.mul_add_lt_is_or h2 c
  rw [← h1, ← h3]
  ring

theorem create_frame_shape (host_id : Nat) (ct : CommandType) (mid d2 : Nat)
    (payload : List Nat) (hh : host_id < 2 ^ 16) (hm : mid < 2 ^ 8) (hd : d2 < 2 ^ 16) :
    _create_frame host_id ct mid d2 payload =
      [0x41, 0x54] ++
        toBytesBE 4 ((ct.value * 2 ^ 24 + effectiveD2 host_id ct d2 * 2 ^ 8 + mid) * 8 + 4)
        ++ [0x08] ++ payload ++ [0x0d, 0x0a] := by
  have hde : effectiveD2 host_id ct d2 < 2 ^ 16 := by
    unfold effectiveD2
    split <;> omega
  show [0x41, 0x54] ++
      toBytesBE 4 (((ct.value <<< 24 ||| effectiveD2 host_id ct d2 <<< 8 ||| mid) <<< 3) ||| 0b100)
      ++ [0x08] ++ payload ++ [0x0d, 0x0a] = _
  rw [lor_build_id ct.value (effectiveD2 host_id ct d2) mid hde hm, lor_low_bits]

theorem cmd_value_lt (ct : CommandType) : ct.value < 2 ^ 5 := by
  cases ct <;> decide

theorem decode_can_id_create_frame (host_id : Nat) (ct : CommandType) (mid d2 : Nat)
    (payload : List Nat) (hh : host_id < 2 ^ 16) (hm : mid < 2 ^ 8) (hd : d2 < 2 ^ 16) :
    decode_can_id (_create_frame host_id ct mid d2 payload) =
      ct.value * 2 ^ 24 + effectiveD2 host_id ct d2 * 2 ^ 8 + mid := by
  rw [create_frame_shape host_id ct mid d2 payload hh hm hd]
  have hde : effectiveD2 host_id ct d2 < 2 ^ 16 := by
    unfold effectiveD2
    split <;> omega
  have hv := cmd_value_lt ct
  unfold decode_can_id
  have hdrop :
      (([0x41, 0x54] ++
        toBytesBE 4 ((ct.value * 2 ^ 24 + effectiveD2 host_id ct d2 * 2 ^ 8 + mid) * 8 + 4)
        ++ [0x08] ++ payload ++ [0x0d, 0x0a]).drop 2).take 4 =
      toBytesBE 4 ((ct.value * 2 ^ 24 + effectiveD2 host_id ct d2 * 2 ^ 8 + mid) * 8 + 4) := by
    simp [List.drop_append_eq_append_drop, List.take_append_eq_append_take, toBytesBE_length]
  rw [hdrop, bytesToNatBE_toBytesBE4, Nat.shiftRight_eq_div_pow]
  omega

theorem decode_fields_create_frame (host_id : Nat) (ct : CommandType) (mid d2 : Nat)
    (payload : List Nat) (hh : host_id < 2 ^ 16) (hm : mid < 2 ^ 8) (hd : d2 < 2 ^ 16) :
    decode_cmd_type (_create_frame host_id ct mid d2 payload) = ct.value ∧
    decode_secondary_id (_create_frame host_id ct mid d2 payload) =
      effectiveD2 host_id ct d2 ∧
    decode_motor_id (_create_frame host_id ct mid d2 payload) = mid ∧
    decode_status (_create_frame host_id ct mid d2 payload) =
      effectiveD2 host_id ct d2 / 2 ^ 14 % 4 ∧
    decode_error_flags (_create_frame host_id ct mid d2 payload) =
      effectiveD2 host_id ct d2 / 2 ^ 8 % 64 := by
  have hid := decode_can_id_create_frame host_id ct mid d2 payload hh hm hd
  have hde : effectiveD2 host_id ct d2 < 2 ^ 16 := by
    unfold effectiveD2
    split <;> omega
  unfold decode_cmd_type decode_secondary_id decode_motor_id decode_status decode_error_flags
  rw [hid]
  have e16 : (0xFFFF : Nat) = 2 ^ 16 - 1 := by norm_num
  have e8 : (0xFF : Nat) = 2 ^ 8 - 1 := by norm_num
  have e2 : (0b11 : Nat) = 2 ^ 2 - 1 := by norm_num
  have e6 : (0x3F : Nat) = 2 ^ 6 - 1 := by norm_num
  rw [e16, e8, e2, e6, Nat.and_pow_two_sub_one_eq_mod, Nat.and_pow_two_sub_one_eq_mod,
    Nat.and_pow_two_sub_one_eq_mod, Nat.and_pow_two_sub_one_eq_mod,
    Nat.shiftRight_eq_div_pow, Nat.shiftRight_eq_div_pow, Nat.shiftRight_eq_div_pow,
    Nat.shiftRight_eq_div_pow]
  cases ct <;> simp [CommandType.value] <;> omega

theorem create_frame_length (host_id : Nat) (ct : CommandType) (mid d2 : Nat)
    (payload : List Nat) (hp : payload.length = 8) :
    (_create_frame host_id ct mid d2 payload).length = 17 := by
  simp [_create_frame, toBytesBE_length, hp]

/-- C2: encoding command type 0x00 for motor 127 with secondary id 253 (the
default host id) and an all-zero payload yields exactly the 17 bytes
41 54 00 07 EB FC 08 00 00 00 00 00 00 00 00 0D 0A. -/
theorem concrete_encode_vector :
    RobStrideController._create_frame 253 CommandType.GET_DEVICE_ID 127 253
      (List.replicate 8 0) =
    [0x41, 0x54, 0x00, 0x07, 0xEB, 0xFC, 0x08, 0, 0, 0, 0, 0, 0, 0, 0, 0x0D, 0x0A] := by
  decide

/-- C3 counterexample: as stated, the round-trip fails, because _create_frame
replaces the caller's secondary id with the host id for the control command
types.  Encoding GetDeviceId with secondaryId = 0 under host id 253 decodes to
secondary id 253, not 0. -/
theorem frame_roundtrip_counterexample :
    decode_secondary_id
      (RobStrideController._create_frame 253 CommandType.GET_DEVICE_ID 1 0
        (List.replicate 8 0)) = 253 ∧
    (253 : Nat) ≠ 0 := by
  decide

/-- C3 amended: for every valid input the encoded frame is exactly 17 bytes,
and decoding frame bytes 2-5 recovers commandType and motorId always, and
secondaryId for the parameter command types (READ_PARAM, WRITE_PARAM), while
for GetDeviceId/Enable/Disable the recovered secondary id is the host id; the
status/error rule recovers the synthetic fields of the embedded secondary id
(its bits 14-15 and 8-13 respectively). -/
theorem frame_roundtrip_amended (host_id : Nat) (ct : CommandType) (mid d2 : Nat)
    (payload : List Nat) (hh : host_id < 2 ^ 16) (hm : mid ≤ 127) (hd : d2 < 2 ^ 16)
    (hp : payload.length = 8) :
    (_create_frame host_id ct mid d2 payload).length = 17 ∧
    decode_cmd_type (_create_frame host_id ct mid d2 payload) = ct.value ∧
    decode_motor_id (_create_frame host_id ct mid d2 payload) = mid ∧
    ((ct = CommandType.READ_PARAM ∨ ct = CommandType.WRITE_PARAM) →
      decode_secondary_id (_create_frame host_id ct mid d2 payload) = d2) ∧
    ((ct = CommandType.GET_DEVICE_ID ∨ ct = CommandType.ENABLE ∨ ct = CommandType.DISABLE) →
      decode_secondary_id (_create_frame host_id ct mid d2 payload) = host_id) ∧
    decode_status (_create_frame host_id ct mid d2 payload) =
      effectiveD2 host_id ct d2 / 2 ^ 14 % 4 ∧
    decode_error_flags (_create_frame host_id ct mid d2 payload) =
      effectiveD2 host_id ct d2 / 2 ^ 8 % 64 := by
  have hm' : mid < 2 ^ 8 := by omega
  obtain ⟨h1, h2, h3, h4, h5⟩ := decode_fields_create_frame host_id ct mid d2 payload hh hm' hd
  refine ⟨create_frame_length host_id ct mid d2 payload hp, h1, h3, ?_, ?_, h4, h5⟩
  · intro hct
    rw [h2]
    rcases hct with h | h <;> subst h <;> rfl
  · intro hct
    rw [h2]
    rcases hct with h | h | h <;> subst h <;> rfl

/-- C3 amended, witness. -/
theorem frame_roundtrip_amended_witness :
    (253 : Nat) < 2 ^ 16 ∧ (5 : Nat) ≤ 127 ∧ (0x8707 : Nat) < 2 ^ 16 ∧
      (List.replicate 8 0).length = 8 ∧
    decode_status (_create_frame 253 CommandType.READ_PARAM 5 0x8707
      (List.replicate 8 0)) = (0x8707 : Nat) / 2 ^ 14 % 4 := by
  refine ⟨by decide, by decide, by decide, by decide, ?_⟩
  exact (frame_roundtrip_amended 253 CommandType.READ_PARAM 5 0x8707
    (List.replicate 8 0) (by decide) (by decide) (by decide) (by decide)).2.2.2.2.2.1

theorem findMotor_id_eq (motors : Motors) (mid : Nat) (m : RobStride)
    (h : findMotor motors mid = some m) : m.id = mid := by
  unfold findMotor at h
  have hp := List.find?_some h
  simpa using hp

theorem findMotor_setEnabledIn (motors : Motors) (mid mid' : Nat) (b : Bool) :
    findMotor (setEnabledIn motors mid b) mid' =
      (findMotor motors mid').map (fun m => if m.id = mid then m._set_enabled b else m) := by
  unfold findMotor setEnabledIn
  rw [List.find?_map]
  have hp : ((fun m => m.id == mid') ∘ fun m => if m.id = mid then m._set_enabled b else m) =
      (fun (m : RobStride) => m.id == mid') := by
    funext m
    by_cases h : m.id = mid <;> simp [h, Function.comp, RobStride._set_enabled]
  rw [hp]

theorem findMotor_setModeIn (motors : Motors) (mid mid' : Nat) (mode : Option RunMode) :
    findMotor (setModeIn motors mid mode) mid' =
      (findMotor motors mid').map (fun m => if m.id = mid then m._set_mode mode else m) := by
  unfold findMotor setModeIn
  rw [List.find?_map]
  have hp : ((fun m => m.id == mid') ∘ fun m => if m.id = mid then m._set_mode mode else m) =
      (fun (m : RobStride) => m.id == mid') := by
    funext m
    by_cases h : m.id = mid <;> simp [h, Function.comp, RobStride._set_mode]
  rw [hp]

theorem mode_preserved_setEnabledIn (motors : Motors) (mid : Nat) (b : Bool) (mid' : Nat) :
    (findMotor (setEnabledIn motors mid b) mid').map RobStride.get_current_mode =
      (findMotor motors mid').map RobStride.get_current_mode := by
  rw [findMotor_setEnabledIn, Option.map_map]
  congr 1
  funext m
  by_cases h : m.id = mid <;> simp [h, Function.comp, RobStride._set_enabled,
    RobStride.get_current_mode]

theorem ofVal_run_iff (v : Nat) : MotorStatus.ofVal v = MotorStatus.RUN ↔ v = 2 := by
  unfold MotorStatus.ofVal
  split <;> rename_i h
  · simp [h]
  · split <;> rename_i h'
    · simp [h']
    · split <;> rename_i h'' <;> simp [h, h', h'']

/-- C4: for a registered motor, enable reports success exactly when a
validated response arrives whose decoded status is RUN (2); on success the
motor table is the old one with the motor's enabled flag set; on no response
or any other status the table is unchanged; the current mode of every motor
is never touched by enable. -/
theorem enable_transitions_iff_run (env : Env) (motors : Motors) (motor_id : Nat)
    (m : RobStride) (hreg : findMotor motors motor_id = some m) :
    ((enable env motors motor_id).fst = some true ↔
      (∃ response,
        (_send_and_receive env (enableFrame env.host_id motor_id)).fst = some response ∧
        decode_status response = 2)) ∧
    ((enable env motors motor_id).fst = some true →
      (enable env motors motor_id).snd.fst = setEnabledIn motors motor_id true) ∧
    ((enable env motors motor_id).fst ≠ some true →
      (enable env motors motor_id).snd.fst = motors) ∧
    (∀ mid',
      (findMotor (enable env motors motor_id).snd.fst mid').map RobStride.get_current_mode =
        (findMotor motors mid').map RobStride.get_current_mode) := by
  unfold enable
  rw [hreg]
  rcases hs : _send_and_receive env (enableFrame env.host_id motor_id) with ⟨res, tr⟩
  cases res with
  | none => simp
  | some response =>
    by_cases hrun :
        MotorStatus.ofVal ((bytesToNatBE ((response.drop 2).take 4) >>> 3 >>> 22) &&& 0b11) =
          MotorStatus.RUN
    · have hdec : decode_status response = 2 := by
        have h2 := (ofVal_run_iff _).mp hrun
        simpa [decode_status, decode_can_id] using h2
      simp only [hrun, if_pos rfl]
      refine ⟨by simp [hdec], fun _ => rfl, by simp, ?_⟩
      intro mid'
      exact mode_preserved_setEnabledIn motors motor_id true mid'
    · have hdec : ¬ decode_status response = 2 := by
        intro h2
        exact hrun ((ofVal_run_iff _).mpr (by simpa [decode_status, decode_can_id] using h2))
      simp [hrun, hdec]

/-- C4, witness. -/
theorem enable_transitions_iff_run_witness :
    findMotor [RobStride.mk 1 F32.zero none false none] 1 =
        some (RobStride.mk 1 F32.zero none false none) ∧
    ((enable (Env.mk 253 true (fun _ => none) (fun _ _ => true) (fun a _ => a))
        [RobStride.mk 1 F32.zero none false none] 1).fst = some true ↔
      (∃ response,
        (_send_and_receive (Env.mk 253 true (fun _ => none) (fun _ _ => true) (fun a _ => a))
          (enableFrame 253 1)).fst = some response ∧
        decode_status response = 2)) := by
  constructor
  · rfl
  · exact (enable_transitions_iff_run
      (Env.mk 253 true (fun _ => none) (fun _ _ => true) (fun a _ => a))
      [RobStride.mk 1 F32.zero none false none] 1
      (RobStride.mk 1 F32.zero none false none) rfl).1

/-- C5: for a registered motor, disable unconditionally clears the local
state — enabled becomes false and the current mode becomes None — whatever
the wire outcome (the response oracle and channel state are universally
quantified, covering success, no response and malformed responses). -/
theorem disable_clears_state (env : Env) (motors : Motors) (motor_id : Nat)
    (m : RobStride) (hreg : findMotor motors motor_id = some m) :
    (findMotor (disable env motors motor_id).snd.fst motor_id).map
        (fun x => (x._is_enabled, x._current_mode)) = some (false, none) := by
  have hid : m.id = motor_id := findMotor_id_eq motors motor_id m hreg
  unfold disable
  rw [hreg]
  rw [findMotor_setModeIn, findMotor_setEnabledIn, hreg]
  simp [hid, RobStride._set_enabled, RobStride._set_mode]

/-- C5, witness. -/
theorem disable_clears_state_witness :
    findMotor [RobStride.mk 7 F32.zero none true (some RunMode.VELOCITY)] 7 =
        some (RobStride.mk 7 F32.zero none true (some RunMode.VELOCITY)) ∧
    (findMotor (disable (Env.mk 253 false (fun _ => none) (fun _ _ => true) (fun a _ => a))
        [RobStride.mk 7 F32.zero none true (some RunMode.VELOCITY)] 7).snd.fst 7).map
      (fun x => (x._is_enabled, x._current_mode)) = some (false, none) := by
  constructor
  · rfl
  · exact disable_clears_state
      (Env.mk 253 false (fun _ => none) (fun _ _ => true) (fun a _ => a))
      [RobStride.mk 7 F32.zero none true (some RunMode.VELOCITY)] 7
      (RobStride.mk 7 F32.zero none true (some RunMode.VELOCITY)) rfl

theorem send_trace_open (env : Env) (frame : List Nat) (h : env.writerOpen = true) :
    (_send_and_receive env frame).snd = [frame] := by
  unfold _send_and_receive
  rw [h, if_neg (by simp : ¬ (true = false))]
  rcases hr : env.respond frame with _ | r
  · rfl
  · split
    · rfl
    · split
      · split <;> rfl
      · rfl

theorem read_parameter_trace (env : Env) (motor_id index : Nat)
    (hopen : env.writerOpen = true) :
    (_read_parameter env motor_id index).snd =
      [_create_frame env.host_id CommandType.READ_PARAM motor_id env.host_id
        (toBytesLE 2 index ++ List.replicate 6 0)] := by
  unfold _read_parameter
  have h2 := send_trace_open env (_create_frame env.host_id CommandType.READ_PARAM motor_id
    env.host_id (toBytesLE 2 index ++ List.replicate 6 0)) hopen
  rcases hs : _send_and_receive env (_create_frame env.host_id CommandType.READ_PARAM motor_id
    env.host_id (toBytesLE 2 index ++ List.replicate 6 0)) with ⟨res, tr⟩
  rw [hs] at h2
  simp only [hs]
  cases res
  · exact h2
  · exact h2

theorem setModeIn_enabled_map (motors : Motors) (mid : Nat) (mode : Option RunMode) :
    (setModeIn motors mid mode).map (fun x => x._is_enabled) =
      motors.map (fun x => x._is_enabled) := by
  unfold setModeIn
  rw [List.map_map]
  have hp : ((fun (x : RobStride) => x._is_enabled) ∘
      fun m => if m.id = mid then m._set_mode mode else m) =
      (fun (x : RobStride) => x._is_enabled) := by
    funext m
    by_cases h : m.id = mid <;> simp [h, Function.comp, RobStride._set_mode]
  rw [hp]

/-- C1 counterexample: calling the set-mode operation on a registered motor
that is enabled does not return an IllegalStateTransition failure without a
wire transaction: it sends two frames on the wire, returns True and changes
the motor's currentMode. -/
theorem set_mode_while_enabled_counterexample :
    (findMotor motorsEnabled 1).map RobStride.is_enabled = some true ∧
    (_set_run_mode envPP motorsEnabled 1 RunMode.POSITION_PP).map
        (fun r => (r.fst, r.snd.snd.length,
          (findMotor r.snd.fst 1).map RobStride.get_current_mode)) =
      some (some true, 2, some (some RunMode.POSITION_PP)) :=
  ⟨rfl, rfl⟩

/-- C1 amended: _set_run_mode performs no enabled-state check.  On a
registered, enabled motor with the channel open it still issues the
run-mode write and read-back frames on the wire, returns the boolean
verification outcome (never an error kind), leaves every motor's enabled
flag unchanged, and updates currentMode exactly when the read-back
verification succeeds. -/
theorem set_mode_while_enabled_amended (env : Env) (motors : Motors) (motor_id : Nat)
    (mode : RunMode) (m : RobStride) (hreg : findMotor motors motor_id = some m)
    (_hen : m._is_enabled = true) (hopen : env.writerOpen = true) :
    ∃ ret motors' tr, _set_run_mode env motors motor_id mode = some (ret, motors', tr) ∧
      tr = [writeModeFrame env.host_id motor_id mode,
            readModeFrame env.host_id motor_id] ∧
      ret.isSome = true ∧
      motors'.map (fun x => x._is_enabled) = motors.map (fun x => x._is_enabled) ∧
      (ret = some true → motors' = setModeIn motors motor_id (some mode)) ∧
      (ret = some false → motors' = motors) := by
  have htrw : (_write_parameter env motor_id ParameterIndex.RUN_MODE
      (ParamValue.int mode.value)).snd = [writeModeFrame env.host_id motor_id mode] :=
    send_trace_open env _ hopen
  have htrr : (_read_parameter env motor_id ParameterIndex.RUN_MODE).snd =
      [readModeFrame env.host_id motor_id] :=
    read_parameter_trace env motor_id ParameterIndex.RUN_MODE hopen
  have htr : (_write_parameter env motor_id ParameterIndex.RUN_MODE
        (ParamValue.int mode.value)).snd ++
      (_read_parameter env motor_id ParameterIndex.RUN_MODE).snd =
      [writeModeFrame env.host_id motor_id mode, readModeFrame env.host_id motor_id] := by
    rw [htrw, htrr]
    rfl
  unfold _set_run_mode
  rcases hr : (_read_parameter env motor_id ParameterIndex.RUN_MODE).fst with _ | rd
  · exact ⟨some false, motors,
      (_write_parameter env motor_id ParameterIndex.RUN_MODE (ParamValue.int mode.value)).snd ++
        (_read_parameter env motor_id ParameterIndex.RUN_MODE).snd,
      by simp [hr], htr, rfl, rfl, by simp, fun _ => rfl⟩
  · by_cases hv : bytesToNatLE (rd.take 1) = mode.value
    · exact ⟨some true, setModeIn motors motor_id (some mode),
        (_write_parameter env motor_id ParameterIndex.RUN_MODE (ParamValue.int mode.value)).snd ++
          (_read_parameter env motor_id ParameterIndex.RUN_MODE).snd,
        by simp [hr, hv, hreg], htr, rfl,
        setModeIn_enabled_map motors motor_id (some mode), fun _ => rfl, by simp⟩
    · exact ⟨some false, motors,
        (_write_parameter env motor_id ParameterIndex.RUN_MODE (ParamValue.int mode.value)).snd ++
          (_read_parameter env motor_id ParameterIndex.RUN_MODE).snd,
        by simp [hr, hv], htr, rfl, rfl, by simp, fun _ => rfl⟩

/-- C1 amended, witness. -/
theorem set_mode_while_enabled_amended_witness :
    findMotor motorsEnabled 1 = some (RobStride.mk 1 F32.zero none true
      (some RunMode.VELOCITY)) ∧
    (RobStride.mk 1 F32.zero none true (some RunMode.VELOCITY))._is_enabled = true ∧
    envPP.writerOpen = true ∧
    (∃ ret motors' tr,
      _set_run_mode envPP motorsEnabled 1 RunMode.POSITION_PP = some (ret, motors', tr) ∧
      tr = [writeModeFrame envPP.host_id 1 RunMode.POSITION_PP,
            readModeFrame envPP.host_id 1] ∧
      ret.isSome = true ∧
      motors'.map (fun x => x._is_enabled) = motorsEnabled.map (fun x => x._is_enabled) ∧
      (ret = some true → motors' = setModeIn motorsEnabled 1 (some RunMode.POSITION_PP)) ∧
      (ret = some false → motors' = motorsEnabled)) :=
  ⟨rfl, rfl, rfl, set_mode_while_enabled_amended envPP motorsEnabled 1 RunMode.POSITION_PP
    (RobStride.mk 1 F32.zero none true (some RunMode.VELOCITY)) rfl rfl rfl⟩

/-- C6 counterexample: with a read-back of bytes 01 01 00 00 — the 32-bit
little-endian value 257, not equal to the requested mode value 1 — the
set-mode verification nevertheless reports success, because the code compares
only the first byte of the read-back. -/
theorem set_mode_verify_counterexample :
    (_read_parameter env257 1 ParameterIndex.RUN_MODE).fst = some [1, 1, 0, 0] ∧
    bytesToNatLE [1, 1, 0, 0] = 257 ∧
    RunMode.POSITION_PP.value = 1 ∧
    (_set_run_mode env257 motorsDisabled 1 RunMode.POSITION_PP).map (fun r => r.fst) =
      some (some true) :=
  ⟨rfl, rfl, rfl, rfl⟩

/-- C6 amended: for a registered motor, the run-mode verification succeeds
exactly when the parameter read-back returns data whose FIRST byte (as an
unsigned little-endian integer, no tolerance) equals the requested mode
value; when it does not succeed, currentMode is not updated. -/
theorem set_mode_verify_first_byte (env : Env) (motors : Motors) (motor_id : Nat)
    (mode : RunMode) (m : RobStride) (hreg : findMotor motors motor_id = some m) :
    ∃ ret motors' tr, _set_run_mode env motors motor_id mode = some (ret, motors', tr) ∧
      (ret = some true ↔
        (∃ rd, (_read_parameter env motor_id ParameterIndex.RUN_MODE).fst = some rd ∧
          bytesToNatLE (rd.take 1) = mode.value)) ∧
      (ret = some true → motors' = setModeIn motors motor_id (some mode)) ∧
      (ret ≠ some true → motors' = motors) := by
  unfold _set_run_mode
  rcases hr : (_read_parameter env motor_id ParameterIndex.RUN_MODE).fst with _ | rd
  · refine ⟨some false, motors,
      (_write_parameter env motor_id ParameterIndex.RUN_MODE (ParamValue.int mode.value)).snd ++
        (_read_parameter env motor_id ParameterIndex.RUN_MODE).snd,
      by simp [hr], ?_, by simp, fun _ => rfl⟩
    constructor
    · intro h
      simp at h
    · intro h
      obtain ⟨rd', hrd', _⟩ := h
      exact absurd hrd' (by simp)
  · by_cases hv : bytesToNatLE (rd.take 1) = mode.value
    · refine ⟨some true, setModeIn motors motor_id (some mode),
        (_write_parameter env motor_id ParameterIndex.RUN_MODE (ParamValue.int mode.value)).snd ++
          (_read_parameter env motor_id ParameterIndex.RUN_MODE).snd,
        by simp [hr, hv, hreg], ?_, fun _ => rfl, by simp⟩
      simp only [true_iff]
      exact ⟨rd, rfl, hv⟩
    · refine ⟨some false, motors,
        (_write_parameter env motor_id ParameterIndex.RUN_MODE (ParamValue.int mode.value)).snd ++
          (_read_parameter env motor_id ParameterIndex.RUN_MODE).snd,
        by simp [hr, hv], ?_, by simp, fun _ => rfl⟩
      constructor
      · intro h
        simp at h
      · intro h
        obtain ⟨rd', hrd', hv'⟩ := h
        injection hrd' with h2
        subst h2
        exact absurd hv' hv

/-- C6 amended, witness. -/
theorem set_mode_verify_first_byte_witness :
    findMotor motorsDisabled 1 = some (RobStride.mk 1 F32.zero none false none) ∧
    (∃ ret motors' tr,
      _set_run_mode env257 motorsDisabled 1 RunMode.POSITION_PP = some (ret, motors', tr) ∧
      (ret = some true ↔
        (∃ rd, (_read_parameter env257 1 ParameterIndex.RUN_MODE).fst = some rd ∧
          bytesToNatLE (rd.take 1) = RunMode.POSITION_PP.value)) ∧
      (ret = some true → motors' = setModeIn motorsDisabled 1 (some RunMode.POSITION_PP)) ∧
      (ret ≠ some true → motors' = motorsDisabled)) :=
  ⟨rfl, set_mode_verify_first_byte env257 motorsDisabled 1 RunMode.POSITION_PP
    (RobStride.mk 1 F32.zero none false none) rfl⟩

/-- C8 counterexample: on a registered motor with a responsive wire, disable
and the three setpoint operations return no success/failure outcome at all
(the Python functions return None on happy and failure paths alike). -/
theorem no_outcome_counterexample :
    (disable envPP motorsEnabled 1).fst = none ∧
    (set_target_position envPP motorsEnabled 1 F32.zero).fst = none ∧
    (set_target_velocity envPP motorsEnabled 1 F32.zero).fst = none ∧
    (set_target_current envPP motorsEnabled 1 F32.zero).fst = none :=
  ⟨rfl, rfl, rfl, rfl⟩

/-- C8 amended: for a registered motor, enable, the set-mode operation and
the applyLimits operations return an explicit boolean outcome — in
particular the set-mode operation does return (the uncaught KeyError of
robstride.py line 300 is reachable only for an unregistered id), and its
returned value is a boolean, never None; disable and the setpoint
operations return no result (None) on every path, happy or failing. -/
theorem explicit_outcomes_amended (env : Env) (motors : Motors) (motor_id : Nat)
    (mode : RunMode) (p v c : F32) (m : RobStride)
    (hreg : findMotor motors motor_id = some m) :
    (enable env motors motor_id).fst.isSome = true ∧
    (∃ r, _set_run_mode env motors motor_id mode = some r ∧ r.fst.isSome = true) ∧
    (apply_pp_limits env motors motor_id).fst.isSome = true ∧
    (apply_velocity_limits env motors motor_id).fst.isSome = true ∧
    (apply_csp_limits env motors motor_id).fst.isSome = true ∧
    (disable env motors motor_id).fst = none ∧
    (set_target_position env motors motor_id p).fst = none ∧
    (set_target_velocity env motors motor_id v).fst = none ∧
    (set_target_current env motors motor_id c).fst = none := by
  refine ⟨?_, ?_, ?_, ?_, ?_, ?_, ?_, ?_, ?_⟩
  · unfold enable
    split
    · rfl
    · split
      · rfl
      · dsimp only
        split <;> rfl
  · unfold _set_run_mode
    rcases hr : (_read_parameter env motor_id ParameterIndex.RUN_MODE).fst with _ | rd
    · exact ⟨(some false, motors,
        (_write_parameter env motor_id ParameterIndex.RUN_MODE (ParamValue.int mode.value)).snd ++
          (_read_parameter env motor_id ParameterIndex.RUN_MODE).snd),
        by simp [hr], rfl⟩
    · by_cases hv : bytesToNatLE (rd.take 1) = mode.value
      · exact ⟨(some true, setModeIn motors motor_id (some mode),
          (_write_parameter env motor_id ParameterIndex.RUN_MODE (ParamValue.int mode.value)).snd ++
            (_read_parameter env motor_id ParameterIndex.RUN_MODE).snd),
          by simp [hr, hv, hreg], rfl⟩
      · exact ⟨(some false, motors,
          (_write_parameter env motor_id ParameterIndex.RUN_MODE (ParamValue.int mode.value)).snd ++
            (_read_parameter env motor_id ParameterIndex.RUN_MODE).snd),
          by simp [hr, hv], rfl⟩
  · unfold apply_pp_limits
    split
    · rfl
    · split
      · rfl
      · split <;> rfl
  · unfold apply_velocity_limits
    split
    · rfl
    · split
      · rfl
      · split <;> rfl
  · unfold apply_csp_limits
    split
    · rfl
    · split
      · rfl
      · split <;> rfl
  · unfold disable
    split <;> rfl
  · unfold set_target_position
    split <;> rfl
  · unfold set_target_velocity
    split <;> rfl
  · unfold set_target_current
    split <;> rfl

/-- C8 amended, witness. -/
theorem explicit_outcomes_amended_witness :
    findMotor motorsEnabled 1 = some (RobStride.mk 1 F32.zero none true
      (some RunMode.VELOCITY)) ∧
    (enable envPP motorsEnabled 1).fst.isSome = true ∧
    (∃ r, _set_run_mode envPP motorsEnabled 1 RunMode.POSITION_PP = some r ∧
      r.fst.isSome = true) ∧
    (disable envPP motorsEnabled 1).fst = none :=
  ⟨rfl,
   (explicit_outcomes_amended envPP motorsEnabled 1 RunMode.POSITION_PP F32.zero F32.zero
      F32.zero (RobStride.mk 1 F32.zero none true (some RunMode.VELOCITY)) rfl).1,
   (explicit_outcomes_amended envPP motorsEnabled 1 RunMode.POSITION_PP F32.zero F32.zero
      F32.zero (RobStride.mk 1 F32.zero none true (some RunMode.VELOCITY)) rfl).2.1,
   (explicit_outcomes_amended envPP motorsEnabled 1 RunMode.POSITION_PP F32.zero F32.zero
      F32.zero (RobStride.mk 1 F32.zero none true (some RunMode.VELOCITY)) rfl).2.2.2.2.2.1⟩

/-- C7: connect reports success exactly when the serial channel opens and
every registered motor answers its zero-payload GetDeviceId probe with a
valid response; and the channel is left open exactly on success — an open
failure never opened it, a probe failure closes it again (binary readiness
gate, no partial success).  The range hypotheses keep the total frame model
aligned with Python's int.to_bytes. -/
theorem connect_binary_gate (env : Env) (openOK : Bool) (motor_ids : List Nat)
    (_hmids : ∀ mid ∈ motor_ids, mid ≤ 127) (_hh : env.host_id < 2 ^ 16) :
    ((connect env openOK motor_ids).fst = true ↔
      (openOK = true ∧ ∀ mid ∈ motor_ids, probe_ok env mid = true)) ∧
    (connect env openOK motor_ids).snd = (connect env openOK motor_ids).fst := by
  unfold connect
  cases openOK
  · simp
  · rw [if_neg (by simp : ¬ (true = false))]
    by_cases hall : motor_ids.all (fun mid => probe_ok env mid) = true
    · rw [if_pos hall]
      refine ⟨?_, rfl⟩
      simp only [List.all_eq_true] at hall
      constructor
      · intro _
        exact ⟨rfl, hall⟩
      · intro _
        rfl
    · rw [if_neg hall]
      refine ⟨?_, rfl⟩
      simp only [List.all_eq_true] at hall
      simp [hall]

/-- C7, witness. -/
theorem connect_binary_gate_witness :
    (∀ mid ∈ ([1] : List Nat), mid ≤ 127) ∧ envPP.host_id < 2 ^ 16 ∧
    (((connect envPP true [1]).fst = true ↔
      (true = true ∧ ∀ mid ∈ ([1] : List Nat), probe_ok envPP mid = true)) ∧
     (connect envPP true [1]).snd = (connect envPP true [1]).fst) :=
  ⟨by decide, by decide, connect_binary_gate envPP true [1] (by decide) (by decide)⟩

theorem setEnabledIn_ids (motors : Motors) (mid : Nat) (b : Bool) :
    (setEnabledIn motors mid b).map (fun m => m.id) = motors.map (fun m => m.id) := by
  unfold setEnabledIn
  rw [List.map_map]
  have hp : ((fun (m : RobStride) => m.id) ∘
      fun m => if m.id = mid then m._set_enabled b else m) =
      fun (m : RobStride) => m.id := by
    funext m
    by_cases h : m.id = mid <;> simp [h, Function.comp, RobStride._set_enabled]
  rw [hp]

theorem setModeIn_ids (motors : Motors) (mid : Nat) (mode : Option RunMode) :
    (setModeIn motors mid mode).map (fun m => m.id) = motors.map (fun m => m.id) := by
  unfold setModeIn
  rw [List.map_map]
  have hp : ((fun (m : RobStride) => m.id) ∘
      fun m => if m.id = mid then m._set_mode mode else m) =
      fun (m : RobStride) => m.id := by
    funext m
    by_cases h : m.id = mid <;> simp [h, Function.comp, RobStride._set_mode]
  rw [hp]

theorem findMotor_isSome_of_mem (motors : Motors) (mid : Nat)
    (h : mid ∈ motors.map (fun m => m.id)) : (findMotor motors mid).isSome = true := by
  unfold findMotor
  rw [List.find?_isSome]
  obtain ⟨m, hm, hid⟩ := List.mem_map.mp h
  exact ⟨m, hm, by simp [hid]⟩

theorem set_target_velocity_zero_eq (env : Env) (motors : Motors) (mid : Nat)
    (hreg : (findMotor motors mid).isSome = true) (hopen : env.writerOpen = true) :
    set_target_velocity env motors mid F32.zero =
      (none, motors, [velZeroFrame env.host_id mid]) := by
  unfold set_target_velocity
  rcases hf : findMotor motors mid with _ | m
  · rw [hf] at hreg
    simp at hreg
  · have ht : (_write_parameter env mid ParameterIndex.SPD_REF
        (ParamValue.float F32.zero)).snd = [velZeroFrame env.host_id mid] :=
      send_trace_open env (velZeroFrame env.host_id mid) hopen
    simp only [ht]

theorem set_target_current_zero_eq (env : Env) (motors : Motors) (mid : Nat)
    (hreg : (findMotor motors mid).isSome = true) (hopen : env.writerOpen = true) :
    set_target_current env motors mid F32.zero =
      (none, motors, [curZeroFrame env.host_id mid]) := by
  unfold set_target_current
  rcases hf : findMotor motors mid with _ | m
  · rw [hf] at hreg
    simp at hreg
  · have ht : (_write_parameter env mid ParameterIndex.IQ_REF
        (ParamValue.float F32.zero)).snd = [curZeroFrame env.host_id mid] :=
      send_trace_open env (curZeroFrame env.host_id mid) hopen
    simp only [ht]

theorem disable_eq_open (env : Env) (motors : Motors) (mid : Nat)
    (hreg : (findMotor motors mid).isSome = true) (hopen : env.writerOpen = true) :
    disable env motors mid =
      (none, setModeIn (setEnabledIn motors mid false) mid none,
        [disableFrame env.host_id mid]) := by
  unfold disable
  rcases hf : findMotor motors mid with _ | m
  · rw [hf] at hreg
    simp at hreg
  · have ht : (_send_and_receive env (disableFrame env.host_id mid)).snd
        = [disableFrame env.host_id mid] := send_trace_open env _ hopen
    simp only [ht]

theorem disAll_pointwise : ∀ (ids : List Nat) (ms : Motors),
    disAll ids ms = ms.map (fun m => if m.id ∈ ids then disabledForm m else m) := by
  intro ids
  induction ids with
  | nil =>
    intro ms
    simp [disAll]
  | cons i rest ih =>
    intro ms
    show disAll rest (setModeIn (setEnabledIn ms i false) i none) = _
    rw [ih]
    unfold setModeIn setEnabledIn
    rw [List.map_map, List.map_map]
    have hp : (((fun m => if m.id ∈ rest then disabledForm m else m) ∘
        fun (m : RobStride) => if m.id = i then m._set_mode none else m) ∘
          fun (m : RobStride) => if m.id = i then m._set_enabled false else m) =
        fun (m : RobStride) => if m.id ∈ i :: rest then disabledForm m else m := by
      funext m
      by_cases hmi : m.id = i
      · by_cases hmr : m.id ∈ rest <;>
          simp [Function.comp, hmi, hmr, disabledForm, RobStride._set_enabled,
            RobStride._set_mode]
      · by_cases hmr : m.id ∈ rest <;>
          simp [Function.comp, hmi, hmr, List.mem_cons, disabledForm,
            RobStride._set_enabled, RobStride._set_mode]
    rw [hp]

theorem shutdown_loop1 (env : Env) (hopen : env.writerOpen = true) :
    ∀ (ids : List Nat) (ms : Motors) (tr : Trace),
      (∀ i ∈ ids, i ∈ ms.map (fun m => m.id)) →
      ids.foldl (fun (acc : Motors × Trace) mid =>
        let r1 := set_target_velocity env acc.fst mid F32.zero
        let r2 := set_target_current env r1.snd.fst mid F32.zero
        (r2.snd.fst, acc.snd ++ r1.snd.snd ++ r2.snd.snd)) (ms, tr) =
      (ms, tr ++ ids.flatMap (fun i =>
        [velZeroFrame env.host_id i, curZeroFrame env.host_id i])) := by
  intro ids
  induction ids with
  | nil =>
    intro ms tr _
    simp
  | cons i rest ih =>
    intro ms tr hmem
    have hsome := findMotor_isSome_of_mem ms i (hmem i (by simp))
    rw [List.foldl_cons]
    have h1 := set_target_velocity_zero_eq env ms i hsome hopen
    have h2 := set_target_current_zero_eq env ms i hsome hopen
    simp only [h1, h2]
    rw [ih ms (tr ++ [velZeroFrame env.host_id i] ++ [curZeroFrame env.host_id i])
      (fun j hj => hmem j (List.mem_cons_of_mem i hj))]
    simp [List.flatMap_cons, List.append_assoc]

theorem shutdown_loop2 (env : Env) (hopen : env.writerOpen = true) :
    ∀ (ids : List Nat) (ms : Motors) (tr : Trace),
      (∀ i ∈ ids, i ∈ ms.map (fun m => m.id)) →
      ids.foldl (fun (acc : Motors × Trace) mid =>
        let r := disable env acc.fst mid
        (r.snd.fst, acc.snd ++ r.snd.snd)) (ms, tr) =
      (disAll ids ms, tr ++ ids.map (fun i => disableFrame env.host_id i)) := by
  intro ids
  induction ids with
  | nil =>
    intro ms tr _
    simp [disAll]
  | cons i rest ih =>
    intro ms tr hmem
    have hsome := findMotor_isSome_of_mem ms i (hmem i (by simp))
    rw [List.foldl_cons]
    have h1 := disable_eq_open env ms i hsome hopen
    simp only [h1]
    have hmem' : ∀ j ∈ rest,
        j ∈ (setModeIn (setEnabledIn ms i false) i none).map (fun m => m.id) := by
      intro j hj
      rw [setModeIn_ids, setEnabledIn_ids]
      exact hmem j (List.mem_cons_of_mem i hj)
    rw [ih (setModeIn (setEnabledIn ms i false) i none)
      (tr ++ [disableFrame env.host_id i]) hmem']
    show _ = (disAll rest (setModeIn (setEnabledIn ms i false) i none), _)
    simp [List.append_assoc]

/-- C9: releasing the session with the channel open sends, for every
registered motor in order, a zero-velocity write then a zero-current write
(first loop), followed by one disable frame per motor (second loop) — so both
zero-setpoint writes of each motor precede its disable — and this trace is
the same for every response oracle: one motor's transaction yielding no
response suppresses no other motor's step.  Afterwards every registered motor
is locally disabled with mode None. -/
theorem aexit_shutdown_sequence (env : Env) (motors : Motors)
    (hopen : env.writerOpen = true) (_hmids : ∀ m ∈ motors, m.id ≤ 127)
    (_hh : env.host_id < 2 ^ 16) :
    (aexit env motors).snd =
      motors.flatMap (fun m =>
        [velZeroFrame env.host_id m.id, curZeroFrame env.host_id m.id])
        ++ motors.map (fun m => disableFrame env.host_id m.id) ∧
    ∀ m' ∈ (aexit env motors).fst,
      m'._is_enabled = false ∧ m'._current_mode = none := by
  unfold aexit
  rw [if_pos hopen]
  have hmem : ∀ i ∈ motors.map (fun m => m.id), i ∈ motors.map (fun m => m.id) :=
    fun i hi => hi
  dsimp only
  rw [shutdown_loop1 env hopen (motors.map (fun m => m.id)) motors [] hmem]
  rw [shutdown_loop2 env hopen (motors.map (fun m => m.id)) motors _ hmem]
  constructor
  · simp [List.flatMap_map, List.map_map, Function.comp]
  · intro m' hm'
    rw [disAll_pointwise] at hm'
    obtain ⟨m0, hm0, heq⟩ := List.mem_map.mp hm'
    have hin : m0.id ∈ motors.map (fun m => m.id) := List.mem_map.mpr ⟨m0, hm0, rfl⟩
    rw [if_pos hin] at heq
    rw [← heq]
    simp [disabledForm, RobStride._set_enabled, RobStride._set_mode]

/-- C9, witness: even with motor 1's disable timing out, the full shutdown
trace is emitted and both motors end disabled. -/
theorem aexit_shutdown_sequence_witness :
    envDrop.writerOpen = true ∧ (∀ m ∈ motorsTwo, m.id ≤ 127) ∧
    envDrop.host_id < 2 ^ 16 ∧
    ((aexit envDrop motorsTwo).snd =
      motorsTwo.flatMap (fun m =>
        [velZeroFrame envDrop.host_id m.id, curZeroFrame envDrop.host_id m.id])
        ++ motorsTwo.map (fun m => disableFrame envDrop.host_id m.id) ∧
     ∀ m' ∈ (aexit envDrop motorsTwo).fst,
       m'._is_enabled = false ∧ m'._current_mode = none) :=
  ⟨rfl, by decide, by decide,
   aexit_shutdown_sequence envDrop motorsTwo rfl (by decide) (by decide)⟩

/-- C10: for GetDeviceId, Enable and Disable the caller-supplied data_area2
argument is ignored — the emitted frame equals the frame built with the host
id in that slot, so the output is independent of the argument. -/
theorem control_frames_ignore_secondary_id :
    ∀ (host_id mid a b : Nat) (payload : List Nat),
      (_create_frame host_id CommandType.GET_DEVICE_ID mid a payload =
        _create_frame host_id CommandType.GET_DEVICE_ID mid b payload ∧
       _create_frame host_id CommandType.GET_DEVICE_ID mid a payload =
        _create_frame host_id CommandType.GET_DEVICE_ID mid host_id payload) ∧
      (_create_frame host_id CommandType.ENABLE mid a payload =
        _create_frame host_id CommandType.ENABLE mid b payload ∧
       _create_frame host_id CommandType.ENABLE mid a payload =
        _create_frame host_id CommandType.ENABLE mid host_id payload) ∧
      (_create_frame host_id CommandType.DISABLE mid a payload =
        _create_frame host_id CommandType.DISABLE mid b payload ∧
       _create_frame host_id CommandType.DISABLE mid a payload =
        _create_frame host_id CommandType.DISABLE mid host_id payload) := by
  intro host_id mid a b payload
  refine ⟨⟨rfl, rfl⟩, ⟨rfl, rfl⟩, ⟨rfl, rfl⟩⟩
